import Mathlib

/-!
Verification development for the PPT-Maker outline editor
(streamlit_app.py): a shallow embedding of its slide data model, the
edit-history stacks over the outline, JSON outline loading, automatic
layout selection, style presets and per-field overrides, the two chart
pipelines of the generator loop, and the image-reference handling, with
theorems about the properties its specification states.

Machine floats entered through the number inputs are modelled as
rationals; Python truthiness of a string is "non-empty", of a float
"non-zero", of a list and a dict "non-empty", of None "false".
-/

namespace PPT

/-- A manual chart payload (a dict with keys categories/values, line 260
of streamlit_app.py) or a dataset chart payload (a dict with keys
x_col/y_col/category_col, line 309), as stored in a slide's chart_data
field. -/
inductive ChartDataV where
  | manual (categories : List String) (values : List ℚ)
  | dataset (x_col y_col : String) (category_col : Option String)
  deriving DecidableEq

/-- The categories list of a manual chart payload. -/
def ChartDataV.manualCategories : ChartDataV → List String
  | ChartDataV.manual cs _ => cs
  | ChartDataV.dataset _ _ _ => []

/-- The values list of a manual chart payload. -/
def ChartDataV.manualValues : ChartDataV → List ℚ
  | ChartDataV.manual _ vs => vs
  | ChartDataV.dataset _ _ _ => []

/-- The dict lookup chart_data.get x_col: present only on the dataset
variant. -/
def ChartDataV.xCol : ChartDataV → Option String
  | ChartDataV.dataset x _ _ => some x
  | ChartDataV.manual _ _ => none

/-- The dict lookup chart_data.get y_col. -/
def ChartDataV.yCol : ChartDataV → Option String
  | ChartDataV.dataset _ y _ => some y
  | ChartDataV.manual _ _ => none

/-- The dict lookup chart_data.get category_col. -/
def ChartDataV.catCol : ChartDataV → Option String
  | ChartDataV.dataset _ _ c => c
  | ChartDataV.manual _ _ => none

/-- One slide record as built by the slide form (lines 333-349 of
streamlit_app.py); the field defaults are exactly the .get defaults the
generator loop applies to each field (lines 619-633). -/
structure Slide where
  title : String := "Untitled"
  content : List String := []
  chart : String := ""
  chart_data : Option ChartDataV := none
  chart_input_type : String := "Manual"
  image : Option String := none
  transition : String := "Fade"
  title_font_size : Nat := 24
  title_alignment : String := "left"
  title_bold : Bool := true
  title_italic : Bool := false
  body_font_size : Nat := 18
  body_alignment : String := "left"
  body_bold : Bool := false
  body_italic : Bool := false
  deriving DecidableEq

instance : Inhabited Slide := ⟨{}⟩

/-- Session history state: the live outline plus the two history stacks
(st.session_state.slides, undo_stack and redo_stack, lines 57-62). -/
structure EHState (α : Type) where
  slides : List α
  undo : List (List α)
  redo : List (List α)
  deriving DecidableEq

variable {α : Type}

/-- A history-tracked replacement of the live outline: push the current
outline onto the undo stack, install the new outline, clear the redo
stack (the shared pattern of lines 350-356, 507-509, 527-529, 580-582
and 586-588). -/
def commit (newOutline : List α) (s : EHState α) : EHState α :=
  ⟨newOutline, s.slides :: s.undo, []⟩

/-- The Undo button (lines 594-597); it is disabled when the undo stack
is empty, which is modelled as a no-op. -/
def undoOp (s : EHState α) : EHState α :=
  match s.undo with
  | [] => s
  | prev :: rest => ⟨prev, rest, s.slides :: s.redo⟩

/-- The Redo button (lines 599-602); disabled on an empty redo stack,
modelled as a no-op. -/
def redoOp (s : EHState α) : EHState α :=
  match s.redo with
  | [] => s
  | nxt :: rest => ⟨nxt, s.slides :: s.undo, rest⟩

/-- Save from the slide form (lines 350-356): snapshot the outline, then
either replace the slide at edit_index (edit mode) or append the new
slide, then clear the redo stack. -/
def submitSlideForm (editIndex : Option Nat) (newSlide : α) (s : EHState α) : EHState α :=
  ⟨match editIndex with
    | some i => s.slides.set i newSlide
    | none => s.slides ++ [newSlide],
   s.slides :: s.undo, []⟩

/-- The Delete button for slide i (lines 579-582): snapshot, pop the
slide, clear the redo stack. -/
def deleteSlide (i : Nat) (s : EHState α) : EHState α :=
  ⟨s.slides.eraseIdx i, s.slides :: s.undo, []⟩

/-- The Duplicate button for slide i (lines 585-588): snapshot, append a
copy of slide i, clear the redo stack. -/
def duplicateSlide [Inhabited α] (i : Nat) (s : EHState α) : EHState α :=
  ⟨s.slides ++ [s.slides.getD i default], s.slides :: s.undo, []⟩

/-- Drag-and-drop reordering (lines 525-529): snapshot, rebuild the
outline in the new index order, clear the redo stack. -/
def reorderSlides [Inhabited α] (order : List Nat) (s : EHState α) : EHState α :=
  ⟨order.map (fun i => s.slides.getD i default), s.slides :: s.undo, []⟩

/-- A parsed JSON value, for outline payloads pasted into the JSON tab. -/
inductive JsonVal where
  | null
  | jbool (b : Bool)
  | jnum (q : ℚ)
  | jstr (s : String)
  | jarr (xs : List JsonVal)
  | jobj (fields : List (String × JsonVal))

/-- The outcome reported by the Load JSON Outline button. -/
inductive LoadReport where
  | success
  | invalidJSON
  | malformedOutline
  deriving DecidableEq

/-- Load JSON Outline (lines 498-512), after the empty-input check, on
the already-parsed payload; none models a json.JSONDecodeError, which
leaves the state untouched and reports invalid JSON (line 511). A parsed
payload that is not a list leaves the state untouched and reports that
the outline must be a list of slides (line 505); only a top-level list
is committed (lines 507-509). -/
def loadJSONOutline (parsed : Option JsonVal) (s : EHState JsonVal) :
    EHState JsonVal × LoadReport :=
  match parsed with
  | none => (s, LoadReport.invalidJSON)
  | some (JsonVal.jarr xs) => (commit xs s, LoadReport.success)
  | some _ => (s, LoadReport.malformedOutline)

/-- Python truthiness of an optional string field. -/
def truthyOptStr : Option String → Bool
  | some s => decide (s ≠ "")
  | none => false

/-- determine_layout (lines 154-163): the automatic layout is a function
of the slide's own title, bullets, chart tag and image reference only;
it takes no style or default-layout input. -/
def determine_layout (sd : Slide) : String :=
  let has_title := decide (sd.title ≠ "")
  let has_content := decide (sd.content ≠ []) || decide (sd.chart ≠ "") || truthyOptStr sd.image
  if has_title && !has_content then "Title Slide"
  else if has_title && has_content then "Title and Content"
  else "Blank"

/-- The working style object st.session_state.style (lines 404-412):
font name, font color hex string, background type, and the one or two
background color hex strings. -/
structure StyleConfig where
  font : String
  font_color : String
  bg_type : String
  bg_color1 : String
  bg_color2 : Option String
  deriving DecidableEq

/-- The Professional entry of the style_presets dict (line 363). -/
def professionalStyle : StyleConfig :=
  ⟨"Calibri", "#000080", "Gradient", "#DDE4FF", some "#FFFFFF"⟩

/-- The Creative entry of the style_presets dict (line 364). -/
def creativeStyle : StyleConfig :=
  ⟨"Roboto", "#D81B60", "Solid", "#FFE082", none⟩

/-- The Minimalist entry of the style_presets dict (line 365). -/
def minimalistStyle : StyleConfig :=
  ⟨"Arial", "#000000", "Solid", "#FFFFFF", none⟩

/-- The style_presets dict lookup (lines 362-366). -/
def style_presets (name : String) : Option StyleConfig :=
  if name = "Professional" then some professionalStyle
  else if name = "Creative" then some creativeStyle
  else if name = "Minimalist" then some minimalistStyle
  else none

/-- Apply Preset (lines 368-369): st.session_state.style is assigned the
preset object wholesale; every field of the previous working style is
discarded. -/
def applyPreset (_current : StyleConfig) (p : StyleConfig) : StyleConfig := p

/-- Explicit single-field edits made through the style widgets after a
preset is applied; an absent field means inherit from the working
style. -/
structure StyleOverrides where
  font : Option String := none
  font_color : Option String := none
  bg_type : Option String := none
  bg_color1 : Option String := none
  bg_color2 : Option (Option String) := none
  deriving DecidableEq

/-- The effective working style: each style widget (lines 371-402) takes
its default value from the corresponding field of
st.session_state.style and the user may override it; an untouched
widget keeps the working-style value. -/
def resolveWorkingStyle (base : StyleConfig) (ov : StyleOverrides) : StyleConfig :=
  ⟨ov.font.getD base.font, ov.font_color.getD base.font_color,
   ov.bg_type.getD base.bg_type, ov.bg_color1.getD base.bg_color1,
   ov.bg_color2.getD base.bg_color2⟩

/-- Manual chart data collection on the slide form (line 260): the
stored dict keeps only truthy categories and truthy values, each list
filtered independently of the other. -/
def collectChartData (categories : List String) (values : List ℚ) : ChartDataV :=
  ChartDataV.manual (categories.filter (fun c => decide (c ≠ "")))
    (values.filter (fun v => decide (v ≠ 0)))

/-- The str.lower() call applied to the chart tag by the generator loop
(line 621), character by character. -/
def lowerString (s : String) : String := String.mk (s.data.map Char.toLower)

/-- A pandas column dtype, reduced to what the chart code inspects:
whether pd.api.types.is_numeric_dtype holds of it. -/
inductive Dtype where
  | int64
  | float64
  | object
  deriving DecidableEq

/-- pd.api.types.is_numeric_dtype on a column dtype. -/
def Dtype.isNumeric : Dtype → Bool
  | Dtype.int64 => true
  | Dtype.float64 => true
  | Dtype.object => false

/-- The dataset schema visible to the chart code: the column names with
their dtypes, and which columns contain missing values (isna().any()). -/
structure DataFrame where
  cols : List (String × Dtype)
  naCols : List String := []
  deriving DecidableEq

/-- df.columns. -/
def DataFrame.columns (df : DataFrame) : List String := df.cols.map Prod.fst

/-- The dtype of column c, if the column exists. -/
def DataFrame.dtypeOf (df : DataFrame) (c : String) : Option Dtype :=
  (df.cols.find? (fun p => p.1 == c)).map Prod.snd

/-- pd.api.types.is_numeric_dtype applied to df-bracket-c (line 289). -/
def DataFrame.isNumericCol (df : DataFrame) (c : String) : Bool :=
  ((df.dtypeOf c).map Dtype.isNumeric).getD false

/-- The outcome of the dataset-chart validation on the slide form
(lines 288-292): non-numeric y column, missing values, or pass. -/
inductive FormCheck where
  | errNonNumericY
  | errMissingValues
  | ok
  deriving DecidableEq

/-- The validation chain of the slide form for dataset charts
(lines 288-292), evaluated in source order: the numeric-dtype check on
the y column first, then the missing-value check on both selected
columns; only on pass does the form build a figure and store the
chart_data dict. -/
def formDatasetChartCheck (df : DataFrame) (x_col y_col : String) : FormCheck :=
  if !(df.isNumericCol y_col) then FormCheck.errNonNumericY
  else if decide (x_col ∈ df.naCols) || decide (y_col ∈ df.naCols) then FormCheck.errMissingValues
  else FormCheck.ok

/-- A built plotting figure. The px constructors record the requested
encoding; regenerate_plotly_fig performs no dtype validation of the
selected columns. -/
structure Fig where
  kind : String
  x : String
  y : String
  colorBy : Option String
  titleText : String
  fontFamily : String
  fontColor : String
  deriving DecidableEq

/-- regenerate_plotly_fig (lines 135-152): dispatch on the chart type
string; the pie branch ignores the category column; a falsy title
becomes the literal Chart; for any other type the local fig is unbound,
the resulting exception is caught and None is returned. -/
def regenerate_plotly_fig (_df : DataFrame) (chart_type x_col y_col : String)
    (category_col : Option String) (title font_name font_color_hex : String) :
    Option Fig :=
  let colorBy := match category_col with
    | some c => if c = "" then none else some c
    | none => none
  let t := if title = "" then "Chart" else title
  if chart_type = "bar" then some ⟨"bar", x_col, y_col, colorBy, t, font_name, font_color_hex⟩
  else if chart_type = "line" then some ⟨"line", x_col, y_col, colorBy, t, font_name, font_color_hex⟩
  else if chart_type = "pie" then some ⟨"pie", x_col, y_col, none, t, font_name, font_color_hex⟩
  else if chart_type = "scatter" then some ⟨"scatter", x_col, y_col, colorBy, t, font_name, font_color_hex⟩
  else none

/-- What the dataset-chart branch of the generator loop (lines 680-702)
does for one slide; rasterized means control reached the
fig.write_image call that rasterizes the figure into the image buffer
embedded on the slide. -/
inductive DatasetGenOutcome where
  | skipped
  | rasterized
  | warnedInvalidData
  | warnedFigNone
  deriving DecidableEq

/-- The dataset-chart branch of the generator loop (lines 680-702): the
guard checks the chart tag, the input type, the presence of a
chart_data dict and of a loaded dataset; the inner check requires the
stored x and y column names to be truthy and present in the dataset's
columns, and nothing else — in particular no dtype is inspected; then
the figure is regenerated and rasterized. -/
def generateDatasetChart (maybeDf : Option DataFrame) (sessionStyle : StyleConfig)
    (sd : Slide) : DatasetGenOutcome :=
  if decide (lowerString sd.chart ∈ ["bar", "line", "pie", "scatter"]) &&
      decide (sd.chart_input_type = "Dataset") && sd.chart_data.isSome && maybeDf.isSome then
    match maybeDf, sd.chart_data with
    | some df, some cd =>
        if truthyOptStr cd.xCol && truthyOptStr cd.yCol &&
            decide (cd.xCol.getD "" ∈ df.columns) && decide (cd.yCol.getD "" ∈ df.columns) then
          match regenerate_plotly_fig df (lowerString sd.chart) (cd.xCol.getD "")
              (cd.yCol.getD "") cd.catCol sd.title sessionStyle.font sessionStyle.font_color with
          | some _ => DatasetGenOutcome.rasterized
          | none => DatasetGenOutcome.warnedFigNone
        else DatasetGenOutcome.warnedInvalidData
    | _, _ => DatasetGenOutcome.skipped
  else DatasetGenOutcome.skipped

/-- The native chart enum values the manual branch can emit
(XL_CHART_TYPE, lines 663-667). -/
inductive XLChartType where
  | PIE
  | COLUMN_CLUSTERED
  | LINE
  deriving DecidableEq

/-- The chart_type_enum dict (lines 663-667). -/
def chart_type_enum : String → Option XLChartType
  | "pie" => some XLChartType.PIE
  | "bar" => some XLChartType.COLUMN_CLUSTERED
  | "line" => some XLChartType.LINE
  | _ => none

/-- The native chart object built by the manual branch (lines 658-676):
chart type, the categories, the single series, and the styled title. -/
structure NativeChart where
  ctype : XLChartType
  categories : List String
  seriesName : String
  seriesValues : List ℚ
  hasTitle : Bool
  titleText : String
  titleFontName : String
  titleFontSizePt : Nat
  titleFontColor : Nat × Nat × Nat
  deriving DecidableEq

/-- A warning collected by the generator loop (st.warning calls). The
imageAddFailed case is the except branch of lines 708-709, reachable
only from inside the image branch when reading or adding the resolved
stream fails; the model treats those external operations as
succeeding, so it is never emitted. -/
inductive Warning where
  | invalidManualChart (slideTitle : String)
  | invalidDatasetChartData (slideTitle : String)
  | failedChartGen (slideTitle : String)
  | failedDatasetChart (slideTitle : String)
  | imageAddFailed (path : String)
  deriving DecidableEq

/-- The manual chart branch of the generator loop (lines 658-678):
guarded by the lowered chart tag, chart_data presence and the Manual
input type; a dataset-shaped chart_data dict raises KeyError on the
categories lookup, caught as a warning naming the slide. The chart gets
one series named Data over the stored values keyed by the stored
categories, and a title of the slide title followed by the word Chart
in the resolved font name and color at 14pt. -/
def addManualChart (font_name : String) (font_color : Nat × Nat × Nat) (sd : Slide) :
    Option NativeChart × Option Warning :=
  if decide (lowerString sd.chart ∈ ["pie", "bar", "line"]) && sd.chart_data.isSome &&
      decide (sd.chart_input_type = "Manual") then
    match sd.chart_data with
    | some (ChartDataV.manual cats vals) =>
        match chart_type_enum (lowerString sd.chart) with
        | some ct =>
            (some ⟨ct, cats, "Data", vals, true, sd.title ++ " Chart", font_name, 14, font_color⟩,
             none)
        | none => (none, some (Warning.invalidManualChart sd.title))
    | some (ChartDataV.dataset _ _ _) => (none, some (Warning.invalidManualChart sd.title))
    | none => (none, none)
  else (none, none)

/-- The warnings emitted by the dataset-chart branch for one slide:
lines 700 and 698 respectively; the successful and skipped paths warn
nothing. -/
def datasetWarning (sd : Slide) : DatasetGenOutcome → List Warning
  | DatasetGenOutcome.warnedInvalidData => [Warning.invalidDatasetChartData sd.title]
  | DatasetGenOutcome.warnedFigNone => [Warning.failedChartGen sd.title]
  | DatasetGenOutcome.skipped => []
  | DatasetGenOutcome.rasterized => []

/-- One rendered slide of the output document. -/
structure RenderedSlide where
  layout : String
  title : String
  bullets : List String
  nativeChart : Option NativeChart
  datasetChart : DatasetGenOutcome
  pictureFromImage : Bool
  note : String
  deriving DecidableEq

/-- A default rendered slide, used only as the out-of-range default of
list indexing in statements. -/
def blankRendered : RenderedSlide :=
  ⟨"Blank", "", [], none, DatasetGenOutcome.skipped, false, ""⟩

/-- The read-only context of one Generate PPT run: the uploaded-image
registry keys, the loaded dataset, the font widgets of the style tab
(used for text and manual chart titles), and the working style object
(used for dataset chart fonts). -/
structure RenderCtx where
  imageFiles : List String
  dataset : Option DataFrame
  font_name : String
  font_color : Nat × Nat × Nat
  sessionStyle : StyleConfig
  deriving DecidableEq

/-- Rendering of one slide by the generator loop (lines 614-711):
layout from determine_layout, the title text, the bullet list, the
manual chart branch, the dataset chart branch, the image branch and the
speaker note. The image branch (lines 704-709) is entered only when the
image reference is truthy and resolves in the uploaded-image registry;
an unresolved reference leaves the branch unentered, embedding nothing
and warning nothing. -/
def renderSlide (ctx : RenderCtx) (sd : Slide) : RenderedSlide × List Warning :=
  let manual := addManualChart ctx.font_name ctx.font_color sd
  let dsOutcome := generateDatasetChart ctx.dataset ctx.sessionStyle sd
  let pic := truthyOptStr sd.image && decide (sd.image.getD "" ∈ ctx.imageFiles)
  (⟨determine_layout sd, sd.title, sd.content, manual.1, dsOutcome, pic,
    "Recommended transition: " ++ sd.transition⟩,
   (match manual.2 with
    | some w => [w]
    | none => []) ++ datasetWarning sd dsOutcome)

/-- The whole Generate PPT loop (lines 613-711) over a typed outline:
every slide is rendered in order and the warnings of all slides are
collected; no per-element failure removes a slide from the document. -/
def genPPT (ctx : RenderCtx) (outline : List Slide) :
    List RenderedSlide × List Warning :=
  (outline.map (fun sd => (renderSlide ctx sd).1),
   (outline.map (fun sd => (renderSlide ctx sd).2)).flatten)

/-- A dataset whose column named name has non-numeric dtype. -/
def dfNonNumericY : DataFrame := ⟨[("name", Dtype.object), ("sales", Dtype.float64)], []⟩

/-- A dataset-chart slide whose stored y_col is the non-numeric column
of dfNonNumericY. -/
def slideNonNumericY : Slide :=
  { title := "Data", chart := "bar", chart_input_type := "Dataset",
    chart_data := some (ChartDataV.dataset "sales" "name" none) }

/-- A render context with no uploaded images and no dataset. -/
def ctxNoImages : RenderCtx := ⟨[], none, "Arial", (0, 0, 0), minimalistStyle⟩

/-- A slide referencing an image absent from the registry. -/
def slideMissingImage : Slide :=
  { title := "Intro", content := ["Point 1"], image := some "missing.png" }

/-- A second slide following the one with the missing image. -/
def slideAfter : Slide := { title := "Next" }

/-! Aliasing model for the history snapshots: Python stores the outline
as a list of references to slide dicts, each of which may reference a
chart_data dict. Addresses into two heaps represent those references,
so that list.copy() (line 350 etc., an address-list copy) and
slide.copy() (line 587, a field-wise dict copy) are modelled exactly. -/

/-- A chart_data dict as a heap object. -/
structure ChartDict where
  categories : List String
  values : List ℚ
  deriving DecidableEq

/-- A slide dict as a heap object: its value fields collapsed to the
title, plus the reference its chart_data field holds. -/
structure SlideDict where
  title : String
  chartRef : Option Nat
  deriving DecidableEq

/-- Default slide dict for out-of-heap lookups in statements. -/
def defaultSlideDict : SlideDict := ⟨"", none⟩

/-- Default chart dict for out-of-heap lookups in statements. -/
def defaultChartDict : ChartDict := ⟨[], []⟩

/-- Lookup of an address in a heap represented as an association list;
the most recent binding wins. -/
def lookupD (h : List (Nat × α)) (a : Nat) (d : α) : α :=
  match h.find? (fun p => p.1 == a) with
  | some p => p.2
  | none => d

/-- The session's reference structure: the live outline as an address
list, the undo stack of snapshot address lists, and the two heaps. -/
structure Sess where
  slides : List Nat
  undo : List (List Nat)
  slideHeap : List (Nat × SlideDict)
  chartHeap : List (Nat × ChartDict)
  deriving DecidableEq

/-- Dereference one slide address: the slide dict's contents plus the
contents of the chart dict its chart_data field references. -/
def obsSlide (s : Sess) (a : Nat) : String × Option ChartDict :=
  let sd := lookupD s.slideHeap a defaultSlideDict
  (sd.title, sd.chartRef.map (fun ca => lookupD s.chartHeap ca defaultChartDict))

/-- The observable contents of a stored snapshot (a list of slide
addresses) under the session's current heaps. -/
def obsOutline (s : Sess) (addrs : List Nat) : List (String × Option ChartDict) :=
  addrs.map (obsSlide s)

/-- The Duplicate button (lines 585-588): undo_stack.append with
slides.copy() pushes a copy of the address list only; the appended
slide.copy() allocates a fresh slide dict whose chartRef field value is
copied as-is, so the copy shares the chart_data dict with the
original. -/
def duplicateOp (i fresh : Nat) (s : Sess) : Sess :=
  ⟨s.slides ++ [fresh], s.slides :: s.undo,
   (fresh, lookupD s.slideHeap (s.slides.getD i 0) defaultSlideDict) :: s.slideHeap,
   s.chartHeap⟩

/-- Save in edit mode (lines 350-353): the form builds a brand-new slide
dict, allocated at a fresh address, and the live list entry is replaced
by that address after the snapshot push. -/
def editReplaceOp (i fresh : Nat) (v : SlideDict) (s : Sess) : Sess :=
  ⟨s.slides.set i fresh, s.slides :: s.undo, (fresh, v) :: s.slideHeap, s.chartHeap⟩

/-- Any mutation that only restructures the live address list after the
snapshot push (append of a fresh address, delete, reorder). -/
def setSlidesList (l : List Nat) (s : Sess) : Sess :=
  ⟨l, s.undo, s.slideHeap, s.chartHeap⟩

/-- An in-place mutation of the chart_data dict stored at address a:
external mutation of a live object, as discussed by the specification;
the app's own handlers always build fresh dicts instead. -/
def mutateChartDict (a : Nat) (v : ChartDict) (s : Sess) : Sess :=
  ⟨s.slides, s.undo, s.slideHeap, (a, v) :: s.chartHeap⟩

/-- A session holding one slide whose chart_data lives at chart address
0. -/
def sessC2 : Sess :=
  ⟨[0], [], [(0, ⟨"Intro", some 0⟩)], [(0, ⟨["A"], [1]⟩)]⟩

/-- sessC2 after the Duplicate button: the snapshot was pushed and the
duplicate allocated at slide address 1. -/
def sessC2dup : Sess := duplicateOp 0 1 sessC2

/-- sessC2dup after an in-place mutation of the duplicated slide's
nested chart_data dict (which it shares with the original). -/
def sessC2mut : Sess := mutateChartDict 0 ⟨["X"], [9]⟩ sessC2dup

/-! Helper lemmas. -/

/-- Looking past a heap binding at a different address. -/
theorem lookupD_cons_ne (b : Nat) (v : α) (h : List (Nat × α)) (a : Nat) (d : α)
    (hne : a ≠ b) : lookupD ((b, v) :: h) a d = lookupD h a d := by
  have hb : ((b, v).1 == a) = false := by
    simp only [beq_eq_false_iff_ne]
    exact fun hba => hne hba.symm
  unfold lookupD
  rw [List.find?_cons_of_neg]
  simp [hb]

/-- Looking up the address of the most recent heap binding. -/
theorem lookupD_cons_self (b : Nat) (v : α) (h : List (Nat × α)) (d : α) :
    lookupD ((b, v) :: h) b d = v := by
  unfold lookupD
  rw [List.find?_cons_of_pos]
  simp

/-- The warning slot of the manual chart branch is either empty or the
invalid-chart-data warning for that slide. -/
theorem addManualChart_warning_shape (f : String) (c : Nat × Nat × Nat) (sd : Slide) :
    (addManualChart f c sd).2 = none ∨
      (addManualChart f c sd).2 = some (Warning.invalidManualChart sd.title) := by
  unfold addManualChart
  split
  · split
    · split
      · exact Or.inl rfl
      · exact Or.inr rfl
    · exact Or.inr rfl
    · exact Or.inl rfl
  · exact Or.inl rfl

/-- No warning produced by rendering one slide is an image warning. -/
theorem renderSlide_no_image_warning (ctx : RenderCtx) (sd : Slide) (w : Warning)
    (hw : w ∈ (renderSlide ctx sd).2) (q : String) : w ≠ Warning.imageAddFailed q := by
  intro hq
  subst hq
  have hmem : Warning.imageAddFailed q ∈
      (match (addManualChart ctx.font_name ctx.font_color sd).2 with
        | some w => [w]
        | none => []) ++ datasetWarning sd (generateDatasetChart ctx.dataset ctx.sessionStyle sd) :=
    hw
  rcases List.mem_append.1 hmem with h1 | h2
  · rcases addManualChart_warning_shape ctx.font_name ctx.font_color sd with h | h <;>
      rw [h] at h1 <;> simp at h1
  · cases hout : generateDatasetChart ctx.dataset ctx.sessionStyle sd <;>
      rw [hout] at h2 <;> simp [datasetWarning] at h2

/-! Theorems for the claims. -/

/-- C1: undo after commit X restores the pre-commit outline, and redo
after that undo restores X; in particular, starting from the empty
session, commit of the one-slide outline, commit of the two-slide
outline, undo, undo, redo, redo passes through the one-slide outline,
then the empty outline, and ends at the two-slide outline. -/
theorem undo_redo_roundtrip (s : EHState Slide) (X : List Slide) (A B : Slide) :
    (undoOp (commit X s)).slides = s.slides ∧
    (redoOp (undoOp (commit X s))).slides = X ∧
    (undoOp (commit [A, B] (commit [A] (⟨[], [], []⟩ : EHState Slide)))).slides = [A] ∧
    (undoOp (undoOp (commit [A, B] (commit [A] ⟨[], [], []⟩)))).slides = [] ∧
    (redoOp (redoOp (undoOp (undoOp (commit [A, B] (commit [A] ⟨[], [], []⟩)))))).slides
      = [A, B] :=
  ⟨rfl, rfl, rfl, rfl, rfl⟩

/-- C8: every non-undo/redo mutation of the outline — saving the form in
edit or add mode, deleting, duplicating, reordering, bulk-loading a
JSON outline, and a commit in general — leaves the redo stack empty. -/
theorem redo_cleared_on_mutation (s : EHState Slide) (js : EHState JsonVal)
    (ei : Option Nat) (n : Slide) (i : Nat) (order : List Nat)
    (X : List Slide) (xs : List JsonVal) :
    (submitSlideForm ei n s).redo = [] ∧
    (deleteSlide i s).redo = [] ∧
    (duplicateSlide i s).redo = [] ∧
    (reorderSlides order s).redo = [] ∧
    (commit X s).redo = [] ∧
    ((loadJSONOutline (some (JsonVal.jarr xs)) js).1).redo = [] :=
  ⟨rfl, rfl, rfl, rfl, rfl, rfl⟩

/-- C3: a successfully parsed payload whose top level is not a list is
rejected as fatal with no per-slide processing: the outline and both
history stacks are returned unchanged and the malformed-outline error
is reported. -/
theorem load_non_list_rejected (payload : JsonVal) (s : EHState JsonVal)
    (h : ∀ xs, payload ≠ JsonVal.jarr xs) :
    loadJSONOutline (some payload) s = (s, LoadReport.malformedOutline) := by
  cases payload with
  | jarr xs => exact absurd rfl (h xs)
  | null => rfl
  | jbool b => rfl
  | jnum q => rfl
  | jstr t => rfl
  | jobj fields => rfl

/-- Witness for C3 at a concrete JSON-object payload and empty session. -/
theorem load_non_list_rejected_witness :
    loadJSONOutline (some (JsonVal.jobj [])) ⟨[], [], []⟩ =
      ((⟨[], [], []⟩ : EHState JsonVal), LoadReport.malformedOutline) :=
  load_non_list_rejected (JsonVal.jobj []) ⟨[], [], []⟩
    (fun _ hx => JsonVal.noConfusion hx)

/-- C7: applying a preset replaces the entire working style object, and
overriding exactly one field afterwards leaves every other field at the
preset's value: Minimalist with only font_color overridden equals
Minimalist in every field except font_color. -/
theorem preset_apply_and_single_override (prev : StyleConfig) (c : String) :
    style_presets "Minimalist" = some minimalistStyle ∧
    applyPreset prev minimalistStyle = minimalistStyle ∧
    resolveWorkingStyle (applyPreset prev minimalistStyle) { font_color := some c } =
      { minimalistStyle with font_color := c } := by
  refine ⟨by decide, rfl, rfl⟩

/-- C10: the stored manual chart data drops empty-string categories and
zero values, each list filtered on its own; at the concrete input with
categories A and B and values 0 and 2, the zero value is dropped while
its non-empty category is kept, so the stored lists have lengths 2 and
1. -/
theorem collect_chart_data_filters (cats : List String) (vals : List ℚ) :
    "" ∉ (collectChartData cats vals).manualCategories ∧
    (0 : ℚ) ∉ (collectChartData cats vals).manualValues ∧
    (collectChartData ["A", "B"] [0, 2]).manualCategories = ["A", "B"] ∧
    (collectChartData ["A", "B"] [0, 2]).manualValues = [2] ∧
    (collectChartData ["A", "B"] [0, 2]).manualCategories.length ≠
      (collectChartData ["A", "B"] [0, 2]).manualValues.length := by
  refine ⟨?_, ?_, by decide, by decide, by decide⟩
  · intro hmem
    have hp := List.of_mem_filter hmem
    simp at hp
  · intro hmem
    have hp := List.of_mem_filter hmem
    simp at hp

/-- Witness for C10 at a concrete category/value input. -/
theorem collect_chart_data_filters_witness :
    "" ∉ (collectChartData ["", "A"] [0, 1]).manualCategories ∧
    (0 : ℚ) ∉ (collectChartData ["", "A"] [0, 1]).manualValues ∧
    (collectChartData ["A", "B"] [0, 2]).manualCategories = ["A", "B"] ∧
    (collectChartData ["A", "B"] [0, 2]).manualValues = [2] ∧
    (collectChartData ["A", "B"] [0, 2]).manualCategories.length ≠
      (collectChartData ["A", "B"] [0, 2]).manualValues.length :=
  collect_chart_data_filters ["", "A"] [0, 1]

/-- C9: the manual chart branch maps the pie, bar and line tags to the
native Pie, ClusteredColumn and Line chart types, builds one data
series named Data from the stored values keyed by the stored
categories, and titles the chart with the slide title followed by the
word Chart, styled with the resolved font name and color at 14pt; no
warning is emitted. -/
theorem manual_chart_rendering (t f : String) (c : Nat × Nat × Nat)
    (cats : List String) (vals : List ℚ) :
    addManualChart f c
        { title := t, chart := "pie", chart_data := some (ChartDataV.manual cats vals) } =
      (some ⟨XLChartType.PIE, cats, "Data", vals, true, t ++ " Chart", f, 14, c⟩, none) ∧
    addManualChart f c
        { title := t, chart := "bar", chart_data := some (ChartDataV.manual cats vals) } =
      (some ⟨XLChartType.COLUMN_CLUSTERED, cats, "Data", vals, true, t ++ " Chart", f, 14, c⟩,
       none) ∧
    addManualChart f c
        { title := t, chart := "line", chart_data := some (ChartDataV.manual cats vals) } =
      (some ⟨XLChartType.LINE, cats, "Data", vals, true, t ++ " Chart", f, 14, c⟩, none) :=
  ⟨rfl, rfl, rfl⟩

/-- C6: the automatic layout is the Title Slide exactly when the slide
has a non-empty title and none of bullets, chart tag or image reference
are present; Title and Content exactly when it has a non-empty title
and at least one of them; and Blank exactly otherwise, that is, when
the title is empty. The function takes no global default layout input
at all. -/
theorem determine_layout_spec (sd : Slide) :
    (determine_layout sd = "Title Slide" ↔
      sd.title ≠ "" ∧ ¬(sd.content ≠ [] ∨ sd.chart ≠ "" ∨ truthyOptStr sd.image = true)) ∧
    (determine_layout sd = "Title and Content" ↔
      sd.title ≠ "" ∧ (sd.content ≠ [] ∨ sd.chart ≠ "" ∨ truthyOptStr sd.image = true)) ∧
    (determine_layout sd = "Blank" ↔ sd.title = "") := by
  by_cases ht : sd.title = "" <;>
    by_cases hc : sd.content = [] <;>
      by_cases hch : sd.chart = "" <;>
        by_cases him : truthyOptStr sd.image = true <;>
          simp [determine_layout, ht, hc, hch, him]

/-- Witness for C6 at a concrete slide with a title and one bullet. -/
theorem determine_layout_spec_witness :
    (determine_layout { title := "Intro", content := ["Point 1"] } = "Title Slide" ↔
      ({ title := "Intro", content := ["Point 1"] } : Slide).title ≠ "" ∧
        ¬(({ title := "Intro", content := ["Point 1"] } : Slide).content ≠ [] ∨
          ({ title := "Intro", content := ["Point 1"] } : Slide).chart ≠ "" ∨
          truthyOptStr ({ title := "Intro", content := ["Point 1"] } : Slide).image = true)) ∧
    (determine_layout { title := "Intro", content := ["Point 1"] } = "Title and Content" ↔
      ({ title := "Intro", content := ["Point 1"] } : Slide).title ≠ "" ∧
        (({ title := "Intro", content := ["Point 1"] } : Slide).content ≠ [] ∨
          ({ title := "Intro", content := ["Point 1"] } : Slide).chart ≠ "" ∨
          truthyOptStr ({ title := "Intro", content := ["Point 1"] } : Slide).image = true)) ∧
    (determine_layout { title := "Intro", content := ["Point 1"] } = "Blank" ↔
      ({ title := "Intro", content := ["Point 1"] } : Slide).title = "") :=
  determine_layout_spec { title := "Intro", content := ["Point 1"] }

/-- C5 counterexample: the generator loop runs a Dataset chart whose
stored y column has non-numeric dtype all the way to the rasterization
step; no dtype validation error occurs on that path. -/
theorem dataset_chart_nonnumeric_reaches_raster :
    dfNonNumericY.dtypeOf "name" = some Dtype.object ∧
    Dtype.isNumeric Dtype.object = false ∧
    generateDatasetChart (some dfNonNumericY) minimalistStyle slideNonNumericY =
      DatasetGenOutcome.rasterized :=
  ⟨rfl, rfl, rfl⟩

/-- C5 amended: on the slide form, a y column with non-numeric dtype is
rejected by the validation chain before any figure is built; but the
dataset branch of the generator loop performs no dtype check at all —
whenever the stored x and y column names are non-empty and present in
the loaded dataset's columns, it reaches the rasterization step
regardless of the y column's dtype. -/
theorem dataset_chart_dtype_validation (df : DataFrame) (x y t : String)
    (cat : Option String) (style : StyleConfig)
    (hy : df.isNumericCol y = false)
    (hx1 : x ≠ "") (hy1 : y ≠ "")
    (hx2 : x ∈ df.columns) (hy2 : y ∈ df.columns) :
    formDatasetChartCheck df x y = FormCheck.errNonNumericY ∧
    generateDatasetChart (some df) style
        { title := t, chart := "bar", chart_input_type := "Dataset",
          chart_data := some (ChartDataV.dataset x y cat) } =
      DatasetGenOutcome.rasterized := by
  constructor
  · simp [formDatasetChartCheck, hy]
  · have hred : generateDatasetChart (some df) style
        { title := t, chart := "bar", chart_input_type := "Dataset",
          chart_data := some (ChartDataV.dataset x y cat) } =
        (if truthyOptStr (some x) && truthyOptStr (some y) &&
            decide (x ∈ df.columns) && decide (y ∈ df.columns) then
          DatasetGenOutcome.rasterized
        else DatasetGenOutcome.warnedInvalidData) := rfl
    simp [hred, truthyOptStr, hx1, hy1, hx2, hy2]

/-- Witness for C5 at the concrete dataset with the object-dtyped
column named name selected as the y column. -/
theorem dataset_chart_dtype_validation_witness :
    formDatasetChartCheck dfNonNumericY "sales" "name" = FormCheck.errNonNumericY ∧
    generateDatasetChart (some dfNonNumericY) minimalistStyle
        { title := "Data", chart := "bar", chart_input_type := "Dataset",
          chart_data := some (ChartDataV.dataset "sales" "name" none) } =
      DatasetGenOutcome.rasterized :=
  dataset_chart_dtype_validation dfNonNumericY "sales" "name" "Data" none minimalistStyle
    (by decide) (by decide) (by decide) (by decide) (by decide)

/-- C4 counterexample: rendering an outline whose first slide references
an image absent from the registry yields both slides with title and
bullets intact, but the warning list is empty — in particular there is
no warning naming the missing image. -/
theorem missing_image_produces_no_warning :
    (genPPT ctxNoImages [slideMissingImage, slideAfter]).2 = [] ∧
    (genPPT ctxNoImages [slideMissingImage, slideAfter]).1.length = 2 ∧
    ((genPPT ctxNoImages [slideMissingImage, slideAfter]).1.getD 0 blankRendered).title
      = "Intro" ∧
    ((genPPT ctxNoImages [slideMissingImage, slideAfter]).1.getD 0 blankRendered).bullets
      = ["Point 1"] ∧
    ((genPPT ctxNoImages [slideMissingImage, slideAfter]).1.getD 0 blankRendered).pictureFromImage
      = false :=
  ⟨rfl, rfl, rfl, rfl, rfl⟩

/-- C4 amended: a slide whose image reference does not resolve in the
registry is still rendered with its title and bullets, the remaining
slides are all assembled, and no picture is embedded for it; but the
missing image is skipped silently — no warning naming it (or any other
image warning) appears in the collected warnings. -/
theorem missing_image_slide_still_rendered (ctx : RenderCtx) (outline : List Slide)
    (i : Nat) (sd : Slide) (p : String)
    (hsd : outline[i]? = some sd)
    (hp : sd.image = some p) (hpne : p ≠ "") (hmiss : p ∉ ctx.imageFiles) :
    (genPPT ctx outline).1.length = outline.length ∧
    (genPPT ctx outline).1[i]? = some (renderSlide ctx sd).1 ∧
    (renderSlide ctx sd).1.title = sd.title ∧
    (renderSlide ctx sd).1.bullets = sd.content ∧
    (renderSlide ctx sd).1.pictureFromImage = false ∧
    Warning.imageAddFailed p ∉ (genPPT ctx outline).2 := by
  refine ⟨?_, ?_, rfl, rfl, ?_, ?_⟩
  · simp [genPPT]
  · rw [show (genPPT ctx outline).1 = outline.map (fun sd => (renderSlide ctx sd).1) from rfl,
      List.getElem?_map _ outline i, hsd]
    rfl
  · simp [renderSlide, hp, truthyOptStr, hpne, hmiss]
  · intro hmem
    rw [show (genPPT ctx outline).2 =
        (outline.map (fun sd => (renderSlide ctx sd).2)).flatten from rfl] at hmem
    rcases List.mem_flatten.1 hmem with ⟨l, hl, hwl⟩
    rcases List.mem_map.1 hl with ⟨sd2, _, rfl⟩
    exact renderSlide_no_image_warning ctx sd2 _ hwl p rfl

/-- Witness for C4 at the concrete one-slide outline with the
unresolved reference missing.png and an empty registry. -/
theorem missing_image_slide_still_rendered_witness :
    (genPPT ctxNoImages [slideMissingImage]).1.length = [slideMissingImage].length ∧
    (genPPT ctxNoImages [slideMissingImage]).1[0]?
      = some (renderSlide ctxNoImages slideMissingImage).1 ∧
    (renderSlide ctxNoImages slideMissingImage).1.title = slideMissingImage.title ∧
    (renderSlide ctxNoImages slideMissingImage).1.bullets = slideMissingImage.content ∧
    (renderSlide ctxNoImages slideMissingImage).1.pictureFromImage = false ∧
    Warning.imageAddFailed "missing.png" ∉ (genPPT ctxNoImages [slideMissingImage]).2 :=
  missing_image_slide_still_rendered ctxNoImages [slideMissingImage] 0 slideMissingImage
    "missing.png" rfl rfl (by decide) (by simp [ctxNoImages])

/-- C2 counterexample: the Duplicate handler pushes a shallow snapshot
and appends a shallow dict copy, so the duplicated slide shares its
chart_data address with the original; mutating that chart dict in
place afterwards changes the observable contents of the snapshot that
was pushed before the mutation. -/
theorem snapshot_shallow_copy_aliasing :
    (lookupD sessC2dup.slideHeap 1 defaultSlideDict).chartRef =
      (lookupD sessC2dup.slideHeap 0 defaultSlideDict).chartRef ∧
    sessC2mut.undo = [[0]] ∧
    obsOutline sessC2dup [0] = [("Intro", some ⟨["A"], [1]⟩)] ∧
    obsOutline sessC2mut [0] = [("Intro", some ⟨["X"], [9]⟩)] ∧
    obsOutline sessC2mut [0] ≠ obsOutline sessC2dup [0] :=
  ⟨rfl, rfl, rfl, rfl, by decide⟩

/-- C2 amended: snapshots are shallow copies of the outline address
list. The app's own mutations are safe: restructuring the live list and
allocating fresh slide dicts (duplicate, edit-as-replacement) never
change a snapshot that does not contain the fresh address. But the
duplicated slide aliases the original's chart_data dict, so an in-place
mutation of that shared dict is observable in the snapshot, as the
counterexample shows. -/
theorem snapshot_list_level_safety (s : Sess) (snapshot : List Nat)
    (l : List Nat) (i fresh : Nat) (v : SlideDict)
    (hfresh : fresh ∉ snapshot) :
    obsOutline (setSlidesList l s) snapshot = obsOutline s snapshot ∧
    obsOutline (duplicateOp i fresh s) snapshot = obsOutline s snapshot ∧
    obsOutline (editReplaceOp i fresh v s) snapshot = obsOutline s snapshot ∧
    (lookupD (duplicateOp i fresh s).slideHeap fresh defaultSlideDict).chartRef =
      (lookupD s.slideHeap (s.slides.getD i 0) defaultSlideDict).chartRef := by
  refine ⟨rfl, ?_, ?_, ?_⟩
  · unfold obsOutline
    refine List.map_congr_left ?_
    intro a ha
    have hane : a ≠ fresh := fun hh => hfresh (hh ▸ ha)
    simp only [obsSlide, duplicateOp]
    rw [lookupD_cons_ne _ _ _ _ _ hane]
  · unfold obsOutline
    refine List.map_congr_left ?_
    intro a ha
    have hane : a ≠ fresh := fun hh => hfresh (hh ▸ ha)
    simp only [obsSlide, editReplaceOp]
    rw [lookupD_cons_ne _ _ _ _ _ hane]
  · rw [show (duplicateOp i fresh s).slideHeap =
        (fresh, lookupD s.slideHeap (s.slides.getD i 0) defaultSlideDict) :: s.slideHeap
        from rfl]
    rw [lookupD_cons_self]

/-- Witness for C2 at the concrete session, with the duplicate
allocated at the fresh address 1 not contained in the snapshot. -/
theorem snapshot_list_level_safety_witness :
    obsOutline (setSlidesList [] sessC2) [0] = obsOutline sessC2 [0] ∧
    obsOutline (duplicateOp 0 1 sessC2) [0] = obsOutline sessC2 [0] ∧
    obsOutline (editReplaceOp 0 1 ⟨"Edited", none⟩ sessC2) [0] = obsOutline sessC2 [0] ∧
    (lookupD (duplicateOp 0 1 sessC2).slideHeap 1 defaultSlideDict).chartRef =
      (lookupD sessC2.slideHeap (sessC2.slides.getD 0 0) defaultSlideDict).chartRef :=
  snapshot_list_level_safety sessC2 [0] [] 0 1 ⟨"Edited", none⟩ (by decide)

end PPT
